import Mathlib

/-!
Verification of the `moltbot-ha` safety-gating CLI.

The definitions below are a shallow embedding of the Python sources
`src/ha_ctl/safety.py`, `src/ha_ctl/cli.py`, `src/ha_ctl/client.py`,
`src/ha_ctl/config.py` and `src/ha_ctl/logger.py`.  Pure Python functions
become Lean functions; the exception-based control flow of the safety
checker (`PermissionError`, `CriticalActionError`) is embedded as an
explicit three-way `Decision` value; each CLI command handler becomes a
function producing a `CmdTrace` recording its outcome, the HTTP service
requests it would issue, and the audit-log records it writes.
-/

namespace HaCtl

/-- All suffixes of a character list, longest first (the list itself down
to `[]`); helper for the `*` clause of the glob matcher. -/
def suffixes : List Char → List (List Char)
  | [] => [[]]
  | c :: cs => (c :: cs) :: suffixes cs

/-- Glob matching over explicit character lists, modelling Python's
`fnmatch.fnmatch` as used by `safety.py` (patterns such as
`switch.outdoor_*`): `*` matches any (possibly empty) sequence of
characters — i.e. the rest of the pattern must match some suffix of the
string — `?` matches exactly one character, and every other character
matches itself.  (Character classes `[seq]` are not modelled; no policy
pattern in the repository or its spec uses them.  POSIX `normcase` is the
identity, so matching is case-sensitive.) -/
def globMatch : List Char → List Char → Bool
  | [], s => s.isEmpty
  | '*' :: ps, s => (suffixes s).any (fun t => globMatch ps t)
  | '?' :: ps, s =>
    match s with
    | [] => false
    | _ :: cs => globMatch ps cs
  | p :: ps, s =>
    match s with
    | [] => false
    | c :: cs => p == c && globMatch ps cs

/-- Python `fnmatch.fnmatch(name, pattern)`. -/
def fnmatch (name pat : String) : Bool :=
  globMatch pat.data name.data

/-- Embeds `safety.is_blocked`: the Python for-loop returning `True` on the
first pattern match and `False` after exhausting the list. -/
def is_blocked (entity_id : String) (blocked_list : List String) : Bool :=
  blocked_list.any (fun pat => fnmatch entity_id pat)

/-- Embeds `safety.is_allowed`: an empty list allows everything, otherwise
some pattern must match. -/
def is_allowed (entity_id : String) (allowed_list : List String) : Bool :=
  if allowed_list.isEmpty then true
  else allowed_list.any (fun pat => fnmatch entity_id pat)

/-- Embeds `entity_id.split(".", 1)[0]` (used by `safety.get_domain`,
`safety.check_action` line 60, `models.EntityState.domain`,
`client.call_service_for_entity` and `cli.set`): the prefix of the string
before the first `.`; Python's `split` never fails, and on a string
containing no `.` the first component is the whole string. -/
def getDomain (entity_id : String) : String :=
  String.mk (entity_id.data.takeWhile (fun c => c != '.'))

/-- Embeds `config.SafetyConfig` with its pydantic field defaults
(`level` is constrained by pydantic to `0 ≤ level ≤ 3`, hence `Nat`). -/
structure SafetyConfig where
  level : Nat := 3
  critical_domains : List String := ["lock", "alarm_control_panel", "cover"]
  blocked_entities : List String := []
  allowed_entities : List String := []
deriving DecidableEq, Repr

/-- The default configuration `SafetyConfig()` used by `check_action`
when called with `config=None`. -/
def defaultSafetyConfig : SafetyConfig := {}

/-- The three-way outcome of `safety.check_action`, reifying its
exception-based control flow: a normal return is `allowed`, a raised
`PermissionError` is `denied` (tagged with which of the two messages was
raised), and a raised `CriticalActionError entity_id action` is
`requiresConfirmation entity_id action`. -/
inductive Decision where
  | allowed : Decision
  | denied (reason : String) : Decision
  | requiresConfirmation (entity_id action : String) : Decision
deriving DecidableEq, Repr

/-- Tag for the `PermissionError` raised at `safety.py` line 45
(entity in blocked list). -/
def blockedReason : String := "blocked"

/-- Tag for the `PermissionError` raised at `safety.py` line 54
(entity not in allowlist). -/
def allowlistReason : String := "not_in_allowlist"

/-- The write-action list of `safety.py` line 71. -/
def writeActions : List String := ["turn_on", "turn_off", "toggle", "set"]

/-- Embeds `safety.check_action` lines 59-77 (the rules evaluated after
the blocklist and allowlist guards): the level-3 critical-domain check —
which, when forced, falls through to the next check rather than raising —
followed by the level-2 write-operation check.  The source nests
`if not force: raise` inside `if level >= 3 and domain in critical`;
flattening that nesting into two guarded branches is control-flow
equivalent. -/
def levelRules (entity_id action : String) (config : SafetyConfig) (force : Bool) : Decision :=
  if 3 ≤ config.level ∧ getDomain entity_id ∈ config.critical_domains ∧ force = false then
    .requiresConfirmation entity_id action
  else if 2 ≤ config.level ∧ action ∈ writeActions ∧ force = false then
    .requiresConfirmation entity_id action
  else
    .allowed

/-- Embeds `safety.check_action` (lines 15-77): level-0 escape hatch,
then the blocklist check (line 43), then the allowlist check (line 52),
then `levelRules`. -/
def checkAction (entity_id action : String) (config : SafetyConfig) (force : Bool) : Decision :=
  if config.level = 0 then
    .allowed
  else if is_blocked entity_id config.blocked_entities then
    .denied blockedReason
  else if config.allowed_entities ≠ [] ∧ is_allowed entity_id config.allowed_entities = false then
    .denied allowlistReason
  else
    levelRules entity_id action config force

/-- ASCII lowercasing of a character, modelling Python `str.lower` on the
ASCII values the CLI compares against (`true`, `yes`, `on`, ...). -/
def lowerChar (c : Char) : Char :=
  if 'A' ≤ c ∧ c ≤ 'Z' then Char.ofNat (c.toNat + 32) else c

/-- Models `value.lower()` as used in `cli.set` and `cli.call`. -/
def lowerStr (s : String) : String :=
  String.mk (s.data.map lowerChar)

/-- The dynamically typed values the CLI builds into service payloads,
re-expressed as a tagged variant (spec §9): Python `bool`, `int`, `float`
and `str`.  A float is represented by the literal it was parsed from
(its numeric value is never inspected by this program). -/
inductive Value where
  | bool (b : Bool) : Value
  | int (n : Int) : Value
  | float (lit : String) : Value
  | str (s : String) : Value
deriving DecidableEq, Repr

/-- Digit run folded to a natural number (helper for `parseInt?`). -/
def digitsToNat (cs : List Char) : Nat :=
  cs.foldl (fun acc c => acc * 10 + (c.toNat - 48)) 0

/-- Models Python `int(value)` on a decimal literal with an optional
sign: `some` of the integer when the parse succeeds, `none` when Python
would raise `ValueError`.  (Python additionally strips surrounding
whitespace and accepts `_` digit separators; those inputs are not
produced by the CLI examples and are modelled as parse failures.) -/
def parseInt? (s : String) : Option Int :=
  match s.data with
  | [] => none
  | '-' :: rest =>
    if rest ≠ [] ∧ rest.all Char.isDigit then some (-(digitsToNat rest : Int)) else none
  | '+' :: rest =>
    if rest ≠ [] ∧ rest.all Char.isDigit then some ((digitsToNat rest : Int)) else none
  | cs =>
    if cs.all Char.isDigit then some ((digitsToNat cs : Int)) else none

/-- Strips one optional leading sign character. -/
def stripSign : List Char → List Char
  | '+' :: rest => rest
  | '-' :: rest => rest
  | cs => cs

/-- Nonempty run of decimal digits. -/
def isDigitRun (cs : List Char) : Bool :=
  !cs.isEmpty && cs.all Char.isDigit

/-- Mantissa of a float literal: `digits`, `digits.`, `digits.digits`
or `.digits`. -/
def isFloatMantissa (cs : List Char) : Bool :=
  let intPart := cs.takeWhile Char.isDigit
  match cs.dropWhile Char.isDigit with
  | [] => !intPart.isEmpty
  | '.' :: frac => (!intPart.isEmpty || !frac.isEmpty) && frac.all Char.isDigit
  | _ => false

/-- Models Python `float(value)` success on `value` (after lowercasing):
optional sign, then `inf`/`infinity`/`nan` or a mantissa with an optional
`e`-exponent.  (As with `parseInt?`, surrounding whitespace and `_`
separators are not modelled.) -/
def isFloatLit (s : String) : Bool :=
  let cs := stripSign (lowerStr s).data
  cs == "inf".data || cs == "infinity".data || cs == "nan".data ||
    (let mant := cs.takeWhile (fun c => c != 'e')
     match cs.dropWhile (fun c => c != 'e') with
     | [] => isFloatMantissa mant
     | _ :: ex => isFloatMantissa mant && isDigitRun (stripSign ex))

/-- The shared numeric tail of the value parsers in `cli.set` (lines
317-326) and `cli.call` (lines 403-410): try `int(value)`, then
`float(value)`, else keep the raw string. -/
def tryNumber (value : String) : Value :=
  match parseInt? value with
  | some n => .int n
  | none => if isFloatLit value then .float value else .str value

/-- Embeds the value typing of `cli.set` (lines 311-326): boolean literals
`true`/`yes`/`on` and `false`/`no`/`off` (case-insensitively), then the
numeric tail. -/
def parseValueSet (value : String) : Value :=
  if lowerStr value ∈ ["true", "yes", "on"] then .bool true
  else if lowerStr value ∈ ["false", "no", "off"] then .bool false
  else tryNumber value

/-- Embeds the value typing of `cli.call` (lines 398-410): boolean
literals are only `true`/`yes` and `false`/`no` — `on` and `off` are NOT
recognised here — then the same numeric tail. -/
def parseValueCall (value : String) : Value :=
  if lowerStr value ∈ ["true", "yes"] then .bool true
  else if lowerStr value ∈ ["false", "no"] then .bool false
  else tryNumber value

/-- A Python `dict[str, Any]` as an insertion-ordered association list;
`dictInsert` models `d[k] = v` (update in place if the key exists,
append otherwise). -/
def dictInsert (d : List (String × Value)) (k : String) (v : Value) : List (String × Value) :=
  if d.any (fun p => p.1 = k) then
    d.map (fun p => if p.1 = k then (k, v) else p)
  else
    d ++ [(k, v)]

/-- Models `k in d` / `d[k]` lookup on a Python dict. -/
def dictGet? (d : List (String × Value)) (k : String) : Option Value :=
  (d.find? (fun p => p.1 = k)).map (fun p => p.2)

/-- Splits a CLI token at its first `=`, modelling the
`if "=" not in s: error` guard followed by `s.split("=", 1)` used by both
`cli.set` and `cli.call`. -/
def splitKV (token : String) : Option (String × String) :=
  if token.data.contains '=' then
    some (String.mk (token.data.takeWhile (fun c => c != '=')),
          String.mk ((token.data.dropWhile (fun c => c != '=')).drop 1))
  else none

/-- Folds a list of `key=value` tokens into a dict starting from `init`,
using the given value parser; `none` when some token has no `=` (the
command aborts with an input error before any safety check or request). -/
def parseTokens (parse : String → Value) (tokens : List String)
    (init : List (String × Value)) : Option (List (String × Value)) :=
  tokens.foldl
    (fun acc tok =>
      acc.bind (fun d => (splitKV tok).map (fun kv => dictInsert d kv.1 (parse kv.2))))
    (some init)

/-- One HTTP service invocation as performed by
`client.call_service(domain, service, data)`: a POST of `data` to
`/api/services/{domain}/{service}`. -/
structure ServiceRequest where
  domain : String
  service : String
  data : List (String × Value)
deriving DecidableEq, Repr

/-- The endpoint string built at `client.py` line 198. -/
def endpointOf (r : ServiceRequest) : String :=
  "/api/services/" ++ r.domain ++ "/" ++ r.service

/-- Embeds `client.call_service_for_entity(entity_id, service)` as used by
the on/off/toggle commands (`data=None`): domain is the prefix of the
entity id, and the payload is `{"entity_id": entity_id}`. -/
def entityRequest (entity_id service : String) : ServiceRequest :=
  { domain := getDomain entity_id
    service := service
    data := [("entity_id", Value.str entity_id)] }

/-- One `logger.log_action(entity_id, action, forced, allowed)` call. -/
structure AuditRecord where
  entity_id : String
  action : String
  forced : Bool
  allowed : Bool
deriving DecidableEq, Repr

/-- How a CLI command invocation ends: normal completion, exit 1 after a
`CriticalActionError`, exit 1 after a `PermissionError`, exit 1 on
malformed input (bad token / bad JSON / bad service name), or an uncaught
exception (`cli.call` reading a non-string `entity_id` out of the
payload would crash on `.split`). -/
inductive Outcome where
  | success : Outcome
  | confirmRequired : Outcome
  | deniedOutcome : Outcome
  | inputError : Outcome
  | crash : Outcome
deriving DecidableEq, Repr

/-- Observable behaviour of one CLI command invocation: its outcome, the
service requests it issues, the audit records it writes (in order), and
the process exit code.  The HTTP transport is out of scope (spec §1);
the hub is modelled as accepting every issued request. -/
structure CmdTrace where
  outcome : Outcome
  requests : List ServiceRequest
  logs : List AuditRecord
  exitCode : Nat
deriving DecidableEq, Repr

/-- Common body of `cli.on`, `cli.off` and `cli.toggle`: run
`check_action`; on `CriticalActionError` print and exit 1 (no audit
record — the handler at `cli.py` lines 207-209 does not call
`log_action`); on `PermissionError` write a `DENIED` audit record and
exit 1; otherwise issue the service call and write an `ALLOWED` record. -/
def simpleActionCmd (entity_id action : String) (force : Bool) (cfg : SafetyConfig) : CmdTrace :=
  match checkAction entity_id action cfg force with
  | .requiresConfirmation _ _ =>
    { outcome := .confirmRequired, requests := [], logs := [], exitCode := 1 }
  | .denied _ =>
    { outcome := .deniedOutcome, requests := [],
      logs := [⟨entity_id, action, force, false⟩], exitCode := 1 }
  | .allowed =>
    { outcome := .success, requests := [entityRequest entity_id action],
      logs := [⟨entity_id, action, force, true⟩], exitCode := 0 }

/-- Embeds `cli.on`. -/
def onCmd (entity_id : String) (force : Bool) (cfg : SafetyConfig) : CmdTrace :=
  simpleActionCmd entity_id "turn_on" force cfg

/-- Embeds `cli.off`. -/
def offCmd (entity_id : String) (force : Bool) (cfg : SafetyConfig) : CmdTrace :=
  simpleActionCmd entity_id "turn_off" force cfg

/-- Embeds `cli.toggle`. -/
def toggleCmd (entity_id : String) (force : Bool) (cfg : SafetyConfig) : CmdTrace :=
  simpleActionCmd entity_id "toggle" force cfg

/-- Embeds `cli.set`: parse the `key=value` tokens into a payload seeded
with `{"entity_id": entity_id}` (parse errors exit before the safety
check), then run `check_action(entity_id, "set", ...)`, and on success
invoke `call_service(domain, "turn_on", data)` — the `turn_on` service of
the entity's domain, never a `set` service (`cli.py` lines 333-335). -/
def setCmd (entity_id : String) (attributes : List String) (force : Bool)
    (cfg : SafetyConfig) : CmdTrace :=
  match parseTokens parseValueSet attributes [("entity_id", Value.str entity_id)] with
  | none => { outcome := .inputError, requests := [], logs := [], exitCode := 1 }
  | some data =>
    match checkAction entity_id "set" cfg force with
    | .requiresConfirmation _ _ =>
      { outcome := .confirmRequired, requests := [], logs := [], exitCode := 1 }
    | .denied _ =>
      { outcome := .deniedOutcome, requests := [],
        logs := [⟨entity_id, "set", force, false⟩], exitCode := 1 }
    | .allowed =>
      { outcome := .success,
        requests := [{ domain := getDomain entity_id, service := "turn_on", data := data }],
        logs := [⟨entity_id, "set", force, true⟩], exitCode := 0 }

/-- The `--json` argument of `cli.call`, modelled as the outcome of the
standard-library JSON decode: either invalid JSON (the command exits 1
before any safety check) or a decoded string-keyed object. -/
inductive JsonArg where
  | invalid : JsonArg
  | obj (data : List (String × Value)) : JsonArg
deriving DecidableEq, Repr

/-- Payload resolution of `cli.call` lines 379-412: a supplied `--json`
payload is used verbatim (decode failure is an input error), otherwise
the `key=value` tokens are parsed with `parseValueCall` into a fresh
dict. -/
def callData (json_data : Option JsonArg) (params : List String) :
    Option (List (String × Value)) :=
  match json_data with
  | some .invalid => none
  | some (.obj d) => some d
  | none => parseTokens parseValueCall params []

/-- The service-name part `service.split(".", 1)[1]`: everything after
the first `.`. -/
def afterDot (s : String) : String :=
  String.mk ((s.data.dropWhile (fun c => c != '.')).drop 1)

/-- Embeds `cli.call`: reject a service string without `.`; resolve the
payload; then — only when the payload has an `entity_id` key AND `force`
is false (`cli.py` line 415: `if "entity_id" in data and not force:`) —
run `check_action` on that entity; otherwise, including whenever
`force = true`, issue the service call with no safety evaluation.  No
branch of `cli.call` ever calls `log_action`. -/
def callCmd (service : String) (params : List String) (json_data : Option JsonArg)
    (force : Bool) (cfg : SafetyConfig) : CmdTrace :=
  if service.data.contains '.' = false then
    { outcome := .inputError, requests := [], logs := [], exitCode := 1 }
  else
    match callData json_data params with
    | none => { outcome := .inputError, requests := [], logs := [], exitCode := 1 }
    | some data =>
      let execute : CmdTrace :=
        { outcome := .success,
          requests := [{ domain := getDomain service, service := afterDot service, data := data }],
          logs := [], exitCode := 0 }
      match dictGet? data "entity_id" with
      | none => execute
      | some v =>
        if force then execute
        else
          match v with
          | .str e =>
            match checkAction e (afterDot service) cfg false with
            | .allowed => execute
            | .denied _ =>
              { outcome := .deniedOutcome, requests := [], logs := [], exitCode := 1 }
            | .requiresConfirmation _ _ =>
              { outcome := .confirmRequired, requests := [], logs := [], exitCode := 1 }
          | _ => { outcome := .crash, requests := [], logs := [], exitCode := 1 }

/-- The audit records the dispatcher is observed to write for one
decision (amended behaviour): one `DENIED` record for a `PermissionError`
denial, one `ALLOWED` record for an executed action, and — contrary to
spec §7 — none at all for a confirmation-required outcome. -/
def expectedLogs (entity_id action : String) (force : Bool) : Decision → List AuditRecord
  | .denied _ => [⟨entity_id, action, force, false⟩]
  | .allowed => [⟨entity_id, action, force, true⟩]
  | .requiresConfirmation _ _ => []

example : checkAction "lock.front_door" "turn_on" {} false =
    Decision.requiresConfirmation "lock.front_door" "turn_on" := by decide

example : checkAction "lock.front_door" "turn_on" {} true = Decision.allowed := by decide

example : checkAction "light.kitchen" "turn_on" {} false =
    Decision.requiresConfirmation "light.kitchen" "turn_on" := by decide

example : fnmatch "switch.outdoor_pump" "switch.outdoor_*" = true := by decide

example : fnmatch "switch.lock_pump" "lock.*" = false := by decide

example : parseValueSet "128" = Value.int 128 := by decide

example : parseValueSet "on" = Value.bool true := by decide

example : parseValueCall "on" = Value.str "on" := by decide

example : parseValueSet "kitchen" = Value.str "kitchen" := by decide

example : parseValueSet "TRUE" = Value.bool true := by decide

example : parseValueSet "2.5" = Value.float "2.5" := by decide

example : parseValueSet "-42" = Value.int (-42) := by decide

example : getDomain "nodot" = "nodot" := by decide

example : checkAction "nodot" "turn_on" {} false =
    Decision.requiresConfirmation "nodot" "turn_on" := by decide

example : checkAction "light.kitchen" "turn_on"
    { level := 0, blocked_entities := ["light.kitchen"] } true = Decision.allowed := by decide

example :
    (onCmd "lock.front_door" false {}).logs = [] ∧
    (onCmd "lock.front_door" false {}).outcome = Outcome.confirmRequired := by decide

example :
    (callCmd "light.turn_on" ["entity_id=light.kitchen"] none true
      { blocked_entities := ["light.kitchen"] }).outcome = Outcome.success := by decide

example :
    (callCmd "light.turn_on" ["entity_id=light.kitchen"] none false
      { blocked_entities := ["light.kitchen"] }).outcome = Outcome.deniedOutcome := by decide

example :
    (setCmd "light.kitchen" ["brightness=128"] false { level := 1 }).requests =
      [{ domain := "light", service := "turn_on",
         data := [("entity_id", Value.str "light.kitchen"), ("brightness", Value.int 128)] }] := by
  decide

theorem dictInsert_any_key (d : List (String × Value)) (k0 k : String) (v : Value)
    (h : d.any (fun p => p.1 = k0) = true) :
    (dictInsert d k v).any (fun p => p.1 = k0) = true := by
  unfold dictInsert
  split_ifs with hany
  · simp only [List.any_eq_true, decide_eq_true_eq] at h ⊢
    obtain ⟨p, hp, hpk⟩ := h
    refine ⟨if p.1 = k then (k, v) else p, List.mem_map_of_mem _ hp, ?_⟩
    by_cases hpk2 : p.1 = k
    · simp only [hpk2, if_pos rfl]
      exact hpk2 ▸ hpk
    · simp only [if_neg hpk2]
      exact hpk
  · simp only [List.any_append, h, Bool.true_or]

theorem foldl_parse_none (parse : String → Value) (ts : List String) :
    ts.foldl
      (fun acc tok =>
        acc.bind (fun d => (splitKV tok).map (fun kv => dictInsert d kv.1 (parse kv.2))))
      none = none := by
  induction ts with
  | nil => rfl
  | cons t ts ih =>
    rw [List.foldl_cons]
    exact ih

theorem parseTokens_any_key (parse : String → Value) (tokens : List String)
    (init data : List (String × Value)) (k0 : String)
    (h0 : init.any (fun p => p.1 = k0) = true)
    (h : parseTokens parse tokens init = some data) :
    data.any (fun p => p.1 = k0) = true := by
  induction tokens generalizing init with
  | nil =>
    have hid : init = data := by
      simpa [parseTokens] using h
    exact hid ▸ h0
  | cons t ts ih =>
    have h1 : ts.foldl
        (fun acc tok =>
          acc.bind (fun d => (splitKV tok).map (fun kv => dictInsert d kv.1 (parse kv.2))))
        ((splitKV t).map (fun kv => dictInsert init kv.1 (parse kv.2))) = some data := h
    cases hsp : splitKV t with
    | none =>
      rw [hsp] at h1
      have h1b : ts.foldl
          (fun acc tok =>
            acc.bind (fun d => (splitKV tok).map (fun kv => dictInsert d kv.1 (parse kv.2))))
          none = some data := h1
      rw [foldl_parse_none] at h1b
      exact absurd h1b (by simp)
    | some kv =>
      rw [hsp] at h1
      have h2 : parseTokens parse ts (dictInsert init kv.1 (parse kv.2)) = some data := h1
      exact ih (dictInsert init kv.1 (parse kv.2)) (dictInsert_any_key init k0 kv.1 (parse kv.2) h0) h2

/-- C5: for every policy with level 0, `check_action` returns Allowed for
every entity, action and force flag — the level-0 check short-circuits
before the blocklist check (`safety.py` lines 38-40). -/
theorem c5_level_zero_allows_everything (e a : String) (cfg : SafetyConfig) (f : Bool)
    (h : cfg.level = 0) :
    checkAction e a cfg f = Decision.allowed := by
  simp [checkAction, h]

theorem c5_witness :
    checkAction "light.kitchen" "turn_on"
      { level := 0, blocked_entities := ["light.kitchen"] } true = Decision.allowed :=
  c5_level_zero_allows_everything "light.kitchen" "turn_on"
    { level := 0, blocked_entities := ["light.kitchen"] } true rfl

/-- C1 (counterexample): the claim quantifies over EVERY policy, but a
level-0 policy bypasses the blocklist: with `level = 0` and
`blocked_entities = ["heater.main"]`, the blocked entity `heater.main`
is Allowed, not Denied. -/
theorem c1_counterexample :
    is_blocked "heater.main" ["heater.main"] = true ∧
    checkAction "heater.main" "turn_on"
      { level := 0, blocked_entities := ["heater.main"] } true = Decision.allowed := by
  decide

/-- C1 (amended): for every policy with level at least 1, an entity
matching any pattern in `blocked_entities` is Denied by `check_action`
(it raises `PermissionError`) for every force flag — the blocklist is
never bypassable by force. -/
theorem c1_blocklist_absolute (e a : String) (cfg : SafetyConfig) (f : Bool)
    (h0 : cfg.level ≠ 0) (hb : is_blocked e cfg.blocked_entities = true) :
    checkAction e a cfg f = Decision.denied blockedReason := by
  simp [checkAction, h0, hb]

theorem c1_witness :
    checkAction "switch.outdoor_pump" "turn_on"
      { blocked_entities := ["switch.outdoor_*"] } true = Decision.denied blockedReason :=
  c1_blocklist_absolute "switch.outdoor_pump" "turn_on"
    { blocked_entities := ["switch.outdoor_*"] } true (by decide) (by decide)

/-- C4: for every policy with level at least 3 and an entity in a critical
domain that passes the block/allow checks, `check_action` with
`force = false` raises `CriticalActionError` (RequiresConfirmation), and
with `force = true` the critical-domain rule does not fire and evaluation
continues through the remaining rule to Allowed. -/
theorem c4_critical_domain_gate (e a : String) (cfg : SafetyConfig)
    (h3 : 3 ≤ cfg.level)
    (hc : getDomain e ∈ cfg.critical_domains)
    (hnb : is_blocked e cfg.blocked_entities = false)
    (hal : is_allowed e cfg.allowed_entities = true) :
    checkAction e a cfg false = Decision.requiresConfirmation e a ∧
    checkAction e a cfg true = Decision.allowed := by
  have h0 : cfg.level ≠ 0 := by omega
  constructor
  · simp [checkAction, h0, hnb, hal, levelRules, h3, hc]
  · simp [checkAction, h0, hnb, hal, levelRules]

theorem c4_witness :
    checkAction "lock.front_door" "turn_on"
      { level := 3, critical_domains := ["lock"], blocked_entities := [],
        allowed_entities := [] } false
      = Decision.requiresConfirmation "lock.front_door" "turn_on" ∧
    checkAction "lock.front_door" "turn_on"
      { level := 3, critical_domains := ["lock"], blocked_entities := [],
        allowed_entities := [] } true
      = Decision.allowed :=
  c4_critical_domain_gate "lock.front_door" "turn_on"
    { level := 3, critical_domains := ["lock"], blocked_entities := [], allowed_entities := [] }
    (by decide) (by decide) (by decide) (by decide)

/-- C6: for every policy with level at least 1 and an unblocked entity:
if the allowlist is non-empty and the entity matches none of its
patterns, `check_action` returns Denied; if the entity is allowed
(matches a pattern, or the allowlist is empty — `is_allowed` of an empty
list is true), evaluation proceeds to the subsequent rules
(`levelRules`). -/
theorem c6_allowlist_gate (e a : String) (cfg : SafetyConfig) (f : Bool)
    (h0 : cfg.level ≠ 0)
    (hnb : is_blocked e cfg.blocked_entities = false) :
    (cfg.allowed_entities ≠ [] → is_allowed e cfg.allowed_entities = false →
      checkAction e a cfg f = Decision.denied allowlistReason) ∧
    (is_allowed e cfg.allowed_entities = true →
      checkAction e a cfg f = levelRules e a cfg f) := by
  constructor
  · intro hne hmiss
    simp [checkAction, h0, hnb, hne, hmiss]
  · intro hal
    simp [checkAction, h0, hnb, hal]

theorem c6_witness :
    checkAction "switch.pump" "turn_on" { level := 1, allowed_entities := ["light.*"] } false
      = Decision.denied allowlistReason ∧
    checkAction "light.kitchen" "turn_on" { level := 1, allowed_entities := ["light.*"] } false
      = levelRules "light.kitchen" "turn_on" { level := 1, allowed_entities := ["light.*"] } false :=
  ⟨(c6_allowlist_gate "switch.pump" "turn_on" { level := 1, allowed_entities := ["light.*"] }
      false (by decide) (by decide)).1 (by decide) (by decide),
   (c6_allowlist_gate "light.kitchen" "turn_on" { level := 1, allowed_entities := ["light.*"] }
      false (by decide) (by decide)).2 (by decide)⟩

/-- C7: for every policy with level at least 2, a write action, an entity
passing the block/allow checks whose domain does not trigger the
critical-domain rule (level below 3 or domain not critical), and
`force = false`, `check_action` raises `CriticalActionError`
(RequiresConfirmation). -/
theorem c7_write_gate (e a : String) (cfg : SafetyConfig)
    (h2 : 2 ≤ cfg.level)
    (ha : a ∈ writeActions)
    (hnb : is_blocked e cfg.blocked_entities = false)
    (hal : is_allowed e cfg.allowed_entities = true)
    (hnc : ¬(3 ≤ cfg.level ∧ getDomain e ∈ cfg.critical_domains)) :
    checkAction e a cfg false = Decision.requiresConfirmation e a := by
  have h0 : cfg.level ≠ 0 := by omega
  simp [checkAction, h0, hnb, hal, levelRules, h2, ha, hnc]

theorem c7_witness :
    checkAction "light.kitchen" "turn_on" { level := 2 } false
      = Decision.requiresConfirmation "light.kitchen" "turn_on" :=
  c7_write_gate "light.kitchen" "turn_on" { level := 2 }
    (by decide) (by decide) (by decide) (by decide) (by decide)

/-- C8 (counterexample): the claim says `check_action` fails with a fixed
input error exactly on an entity id containing no `.`; but Python's
`split(".", 1)[0]` is total, so the dot-free id `nodot` produces an
ordinary policy outcome (RequiresConfirmation under the default policy),
not an error. -/
theorem c8_counterexample :
    checkAction "nodot" "turn_on" defaultSafetyConfig false
      = Decision.requiresConfirmation "nodot" "turn_on" := by
  decide

/-- C8 (amended): `check_action` never fails on any input; an entity id
with no domain separator is processed through the normal policy rules
with its domain being the entire id. -/
theorem c8_no_separator_domain (e : String) (h : ∀ c ∈ e.data, c ≠ '.') :
    getDomain e = e := by
  obtain ⟨l⟩ := e
  have hgen : ∀ m : List Char, (∀ c ∈ m, c ≠ '.') → m.takeWhile (fun c => c != '.') = m := by
    intro m hm
    induction m with
    | nil => rfl
    | cons c cs ih =>
      have hc : (c != '.') = true := by
        simpa using hm c (List.mem_cons_self c cs)
      simp only [List.takeWhile_cons, hc, if_pos]
      exact congrArg (c :: ·) (ih (fun x hx => hm x (List.mem_cons_of_mem c hx)))
  exact congrArg String.mk (hgen l h)

theorem c8_witness : getDomain "nodot" = "nodot" :=
  c8_no_separator_domain "nodot" (by decide)

/-- C9 (counterexample): the claim says `set` and `call` type `key=value`
tokens by the same precedence, with `on` a boolean literal under both;
but `cli.call` lines 399-401 only recognise `true`/`yes`/`false`/`no`,
so the value `on` is a boolean under `set` and stays the raw string
`"on"` under `call`. -/
theorem c9_counterexample :
    parseValueSet "on" = Value.bool true ∧ parseValueCall "on" = Value.str "on" := by
  decide

/-- C9 (amended): `set` types values by boolean literal
(`true`/`yes`/`on` and `false`/`no`/`off`, case-insensitively), then
integer, then float, then raw string; `call` (without a JSON payload)
uses the same precedence except that its boolean literals are only
`true`/`yes` and `false`/`no` — the two parsers agree on every value
whose lowercasing is neither `on` nor `off` — and the examples
`brightness=128` (integer 128), `on=true` (boolean true) and
`name=kitchen` (string) hold under both commands. -/
theorem c9_value_typing :
    (∀ v : String, lowerStr v ≠ "on" → lowerStr v ≠ "off" →
      parseValueSet v = parseValueCall v) ∧
    parseValueSet "128" = Value.int 128 ∧ parseValueCall "128" = Value.int 128 ∧
    parseValueSet "true" = Value.bool true ∧ parseValueCall "true" = Value.bool true ∧
    parseValueSet "kitchen" = Value.str "kitchen" ∧
    parseValueCall "kitchen" = Value.str "kitchen" := by
  refine ⟨?_, by decide, by decide, by decide, by decide, by decide, by decide⟩
  intro v hon hoff
  simp only [parseValueSet, parseValueCall, List.mem_cons, List.mem_singleton,
    List.not_mem_nil, or_false]
  split_ifs <;> first | rfl | tauto

theorem c9_witness : parseValueSet "42" = parseValueCall "42" :=
  c9_value_typing.1 "42" (by decide) (by decide)

/-- C10: after the safety check passes, the `set` command issues exactly
one service request: a POST to `/api/services/<domain>/turn_on` for the
entity's domain, whose payload is the parsed dict (seeded with
`entity_id`) — it never invokes a `set` service. -/
theorem c10_set_uses_turn_on (e : String) (attrs : List String) (f : Bool)
    (cfg : SafetyConfig) (data : List (String × Value))
    (hp : parseTokens parseValueSet attrs [("entity_id", Value.str e)] = some data)
    (hallow : checkAction e "set" cfg f = Decision.allowed) :
    (setCmd e attrs f cfg).requests =
      [{ domain := getDomain e, service := "turn_on", data := data }] ∧
    endpointOf { domain := getDomain e, service := "turn_on", data := data } =
      "/api/services/" ++ getDomain e ++ "/" ++ "turn_on" ∧
    data.any (fun p => p.1 = "entity_id") = true ∧
    (∀ r ∈ (setCmd e attrs f cfg).requests, r.service ≠ "set") := by
  have hreq : (setCmd e attrs f cfg).requests =
      [{ domain := getDomain e, service := "turn_on", data := data }] := by
    simp [setCmd, hp, hallow]
  refine ⟨hreq, rfl, ?_, ?_⟩
  · refine parseTokens_any_key parseValueSet attrs [("entity_id", Value.str e)] data
      "entity_id" (by simp) hp
  · intro r hr
    rw [hreq] at hr
    simp only [List.mem_singleton] at hr
    subst hr
    show ("turn_on" : String) ≠ "set"
    decide

theorem c10_witness :
    (setCmd "light.kitchen" ["brightness=128"] false { level := 0 }).requests =
      [{ domain := getDomain "light.kitchen", service := "turn_on",
         data := [("entity_id", Value.str "light.kitchen"),
                  ("brightness", Value.int 128)] }] :=
  (c10_set_uses_turn_on "light.kitchen" ["brightness=128"] false { level := 0 }
    [("entity_id", Value.str "light.kitchen"), ("brightness", Value.int 128)]
    (by decide) (by decide)).1

/-- C2 (counterexample): the claim says safety evaluation runs whenever
the resolved `call` payload has an `entity_id` key, regardless of force;
but `cli.py` line 415 guards the check with `and not force`, so with a
blocklisted `entity_id` and `force = true` the service is executed with
no safety evaluation at all — the blocklist is bypassed. -/
theorem c2_counterexample :
    callData none ["entity_id=light.kitchen"] =
      some [("entity_id", Value.str "light.kitchen")] ∧
    checkAction "light.kitchen" "turn_on"
      { blocked_entities := ["light.kitchen"] } true = Decision.denied blockedReason ∧
    (callCmd "light.turn_on" ["entity_id=light.kitchen"] none true
      { blocked_entities := ["light.kitchen"] }).outcome = Outcome.success ∧
    (callCmd "light.turn_on" ["entity_id=light.kitchen"] none true
      { blocked_entities := ["light.kitchen"] }).requests ≠ [] := by
  decide

/-- C2 (amended): for the `call` command, when the resolved payload
carries a string `entity_id`, the safety policy engine gates execution
only when `force = false` (the request is issued exactly when the
decision is Allowed); when `force = true` the safety evaluation is
skipped entirely and the service executes unconditionally — even for
blocklisted entities; evaluation is likewise skipped when the payload
has no `entity_id` key. -/
theorem c2_call_safety_gating (svc : String) (params : List String) (j : Option JsonArg)
    (cfg : SafetyConfig) (data : List (String × Value))
    (hs : svc.data.contains '.' = true)
    (hd : callData j params = some data) :
    (∀ e : String, dictGet? data "entity_id" = some (Value.str e) →
      ((callCmd svc params j false cfg).requests =
        (match checkAction e (afterDot svc) cfg false with
          | .allowed => [{ domain := getDomain svc, service := afterDot svc, data := data }]
          | _ => [])) ∧
      (callCmd svc params j true cfg).requests =
        [{ domain := getDomain svc, service := afterDot svc, data := data }]) ∧
    (dictGet? data "entity_id" = none →
      ∀ f : Bool, (callCmd svc params j f cfg).requests =
        [{ domain := getDomain svc, service := afterDot svc, data := data }]) := by
  have hmem : '.' ∈ svc.data := by simpa using hs
  constructor
  · intro e hget
    constructor
    · simp only [callCmd, hs, hd, hget]
      cases h : checkAction e (afterDot svc) cfg false <;> simp [h, hmem]
    · simp [callCmd, hs, hd, hget, hmem]
  · intro hget f
    simp [callCmd, hs, hd, hget, hmem]

theorem c2_witness :
    (callCmd "light.turn_on" ["entity_id=light.kitchen"] none true {}).requests =
      [{ domain := getDomain "light.turn_on", service := afterDot "light.turn_on",
         data := [("entity_id", Value.str "light.kitchen")] }] :=
  ((c2_call_safety_gating "light.turn_on" ["entity_id=light.kitchen"] none {}
      [("entity_id", Value.str "light.kitchen")] (by decide) (by decide)).1
    "light.kitchen" (by decide)).2

/-- C3 (counterexample): the claim says every confirmation-required
outcome is audit-logged before exit; but the `CriticalActionError`
handler of `cli.on` (lines 207-209) never calls `log_action`: turning on
`lock.front_door` under the default policy ends in confirmation-required
with an empty audit trail. -/
theorem c3_counterexample :
    (onCmd "lock.front_door" false defaultSafetyConfig).outcome = Outcome.confirmRequired ∧
    (onCmd "lock.front_door" false defaultSafetyConfig).logs = [] := by
  decide

/-- C3 (amended): for on/off/toggle/set, a `PermissionError` denial is
audit-logged with `allowed = false` and an executed action with
`allowed = true`, but a confirmation-required outcome
(`CriticalActionError`) writes no audit record; the `call` command never
writes an audit record on any outcome. -/
theorem c3_audit_logging (e : String) (f : Bool) (cfg : SafetyConfig)
    (attrs : List String) (data : List (String × Value))
    (hp : parseTokens parseValueSet attrs [("entity_id", Value.str e)] = some data)
    (svc : String) (params : List String) (j : Option JsonArg) :
    (onCmd e f cfg).logs = expectedLogs e "turn_on" f (checkAction e "turn_on" cfg f) ∧
    (offCmd e f cfg).logs = expectedLogs e "turn_off" f (checkAction e "turn_off" cfg f) ∧
    (toggleCmd e f cfg).logs = expectedLogs e "toggle" f (checkAction e "toggle" cfg f) ∧
    (setCmd e attrs f cfg).logs = expectedLogs e "set" f (checkAction e "set" cfg f) ∧
    (callCmd svc params j f cfg).logs = [] := by
  refine ⟨?_, ?_, ?_, ?_, ?_⟩
  · cases h : checkAction e "turn_on" cfg f <;>
      simp [onCmd, simpleActionCmd, h, expectedLogs]
  · cases h : checkAction e "turn_off" cfg f <;>
      simp [offCmd, simpleActionCmd, h, expectedLogs]
  · cases h : checkAction e "toggle" cfg f <;>
      simp [toggleCmd, simpleActionCmd, h, expectedLogs]
  · cases h : checkAction e "set" cfg f <;>
      simp [setCmd, hp, h, expectedLogs]
  · unfold callCmd
    repeat' split <;> try rfl

theorem c3_witness :
    (onCmd "light.heater" false { blocked_entities := ["light.heater"] }).logs =
      expectedLogs "light.heater" "turn_on" false
        (checkAction "light.heater" "turn_on" { blocked_entities := ["light.heater"] } false) :=
  (c3_audit_logging "light.heater" false { blocked_entities := ["light.heater"] } []
    [("entity_id", Value.str "light.heater")] (by decide) "light.turn_on" [] none).1

end HaCtl
